import Mathlib

/-!
Verification of the lumelog logging library (`src/lib.rs`, `src/__private_log.rs`,
`src/macros.rs`) against its natural-language specification.

Shallow embedding conventions:
* `LogLevel` mirrors the Rust enum; its derived `PartialOrd` compares
  declaration-order discriminants, embedded here as `LogLevel.ord`.
* Global state (the `CONFIG` once-cell) is passed explicitly as an
  `Option Config`.
* Wall-clock reads (`SystemTime::now()` inside `style_time`) are passed
  explicitly as `Nat` nanosecond timestamps: the dispatcher makes up to four
  reads per call (two in the main `formatter` invocation, two more in the
  error-path `formatter` invocation), so `log` takes four time parameters.
* File-system behaviour is an oracle: `Option String`, `none` meaning the
  append succeeds, `some err` meaning open or write fails with description
  `err`.
* Side effects are reified as a list of `Output` events (console lines and
  file appends).
-/

namespace Lumelog

/-- Severity level of logs, from `src/lib.rs`. The Rust `derive(PartialOrd)`
orders variants by declaration order: ERROR < WARN < INFO < DEBUG < TRACE. -/
inductive LogLevel where
  | ERROR
  | WARN
  | INFO
  | DEBUG
  | TRACE
deriving DecidableEq

/-- Discriminant (ordinal) of a level, as used by the derived Rust ordering. -/
def LogLevel.ord : LogLevel → Nat
  | .ERROR => 0
  | .WARN => 1
  | .INFO => 2
  | .DEBUG => 3
  | .TRACE => 4

/-- The `{:?}` (Debug) rendering of a level: its variant name. -/
def levelName : LogLevel → String
  | .ERROR => "ERROR"
  | .WARN => "WARN"
  | .INFO => "INFO"
  | .DEBUG => "DEBUG"
  | .TRACE => "TRACE"

/-- File log format, from `src/lib.rs`. -/
inductive FileLoggerFormat where
  | JSON
  | TEXT
deriving DecidableEq

/-- File logger configuration (`FileLogger` in `src/lib.rs`). -/
structure FileLogger where
  enabled : Bool
  path : String
  log_format : FileLoggerFormat
deriving DecidableEq

/-- Builder for the file logger (`FileLoggerBuilder` in `src/lib.rs`). -/
structure FileLoggerBuilder where
  enabled : Bool
  path : Option String
  log_format : Option FileLoggerFormat
deriving DecidableEq

/-- `FileLoggerBuilder::new()`. -/
def FileLoggerBuilder.new : FileLoggerBuilder :=
  { enabled := false, path := none, log_format := some .TEXT }

/-- The two chainable `FileLoggerBuilder` methods, `path` and `log_format`. -/
inductive FLBCall where
  | path (p : String)
  | log_format (f : FileLoggerFormat)

/-- Applying one builder method call (`FileLoggerBuilder::path` /
`FileLoggerBuilder::log_format` in `src/lib.rs`). -/
def applyFLBCall (b : FileLoggerBuilder) : FLBCall → FileLoggerBuilder
  | .path p => { b with path := some p }
  | .log_format f => { b with log_format := some f }

/-- `FileLoggerBuilder::build`. In the source it returns `Result` but is
always `Ok`, so the model returns the `FileLogger` directly. -/
def FileLoggerBuilder.build (b : FileLoggerBuilder) : FileLogger :=
  { enabled := b.enabled,
    path := match b.path with | none => "log.txt" | some p => p,
    log_format := match b.log_format with | none => .TEXT | some f => f }

/-- The full logging configuration (`Config` in `src/lib.rs`). -/
structure Config where
  log_level : LogLevel
  log_in_release : Bool
  log_with_time : Bool
  std : Bool
  file_logger_config : FileLogger
deriving DecidableEq

/-- Builder for the logging configuration (`ConfigBuilder` in `src/lib.rs`). -/
structure ConfigBuilder where
  log_level : Option LogLevel
  log_in_release : Bool
  log_with_time : Option Bool
  std : Bool
  file_logger_config : Option FileLoggerBuilder

/-- `ConfigBuilder::new()`. -/
def ConfigBuilder.new : ConfigBuilder :=
  { log_level := some .INFO, log_in_release := false,
    log_with_time := some true, std := true, file_logger_config := none }

/-- The `Config` value constructed inside `ConfigBuilder::build`
(`src/lib.rs` lines 167-181). `none` models a panic: the source calls
`self.log_with_time.unwrap()`, which panics when the field is `None`
(the other optional fields are defaulted with explicit `is_none` checks). -/
def resolveConfig (b : ConfigBuilder) : Option Config :=
  match b.log_with_time with
  | none => none
  | some w =>
    some { log_level := match b.log_level with | none => .INFO | some l => l,
           log_in_release := b.log_in_release,
           log_with_time := w,
           std := b.std,
           file_logger_config :=
             (match b.file_logger_config with
              | none => FileLoggerBuilder.new
              | some fb => fb).build }

/-- `ConfigBuilder::build`, with the global `CONFIG` once-cell passed
explicitly. `CONFIG.set(..).unwrap()` panics when the cell is already
occupied (`OnceCell::set` returns `Err` then), so that path is `none`;
on success the result is the returned `Config` together with the new cell
contents. -/
def ConfigBuilder.build (b : ConfigBuilder) (cell : Option Config) :
    Option (Config × Option Config) :=
  match resolveConfig b with
  | none => none
  | some c =>
    match cell with
    | some _ => none
    | none => some (c, some c)

/-- An observable side effect of a `log` call. -/
inductive Output where
  | console (line : String)
  | fileAppend (path : String) (data : String)
deriving DecidableEq

/-- ANSI styling as produced by the `colored` crate when colorization is
active: `ESC [ code m text ESC [ 0 m`. -/
def ansi (code : String) (s : String) : String :=
  "\x1b[" ++ code ++ "m" ++ s ++ "\x1b[0m"

/-- `style_level` from `src/__private_log.rs`: wraps `" {:?} "` of the level
in a per-level background color (`on_white` 47, `on_bright_yellow` 103,
`on_red` 41, `on_cyan` 46, `on_bright_black` 100). The trailing branch
returns `" UNKNOWN "`; it is unreachable for the five variants. -/
def style_level (level : LogLevel) : String :=
  if level = .INFO then ansi "47" " INFO "
  else if level = .WARN then ansi "103" " WARN "
  else if level = .ERROR then ansi "41" " ERROR "
  else if level = .DEBUG then ansi "46" " DEBUG "
  else if level = .TRACE then ansi "100" " TRACE "
  else " UNKNOWN "

/-- `true` iff `y` is a leap year (proleptic Gregorian, as used by chrono). -/
def isLeap (y : Nat) : Bool :=
  (y % 4 = 0 && y % 100 != 0) || y % 400 = 0

/-- Number of days in year `y`. -/
def daysInYear (y : Nat) : Nat :=
  if isLeap y then 366 else 365

/-- Fuel-driven year computation: starting from year `y`, consume whole
years out of the day count `d`. Fuel `d + 1` always suffices because every
step removes at least 365 days. -/
def yearFromDaysAux : Nat → Nat → Nat → Nat × Nat
  | 0, y, d => (y, d)
  | fuel + 1, y, d =>
    if daysInYear y ≤ d then yearFromDaysAux fuel (y + 1) (d - daysInYear y)
    else (y, d)

/-- Year and zero-based day-of-year for a count of days since 1970-01-01. -/
def yearFromDays (d : Nat) : Nat × Nat :=
  yearFromDaysAux (d + 1) 1970 d

/-- Month lengths, January first. -/
def monthLengths (leap : Bool) : List Nat :=
  [31, if leap then 29 else 28, 31, 30, 31, 30, 31, 31, 30, 31, 30, 31]

/-- One-based month and day from a zero-based day-of-year, walking the
month-length table starting at month `m`. -/
def monthDay : Nat → List Nat → Nat → Nat × Nat
  | doy, [], m => (m, doy + 1)
  | doy, len :: rest, m =>
    if doy < len then (m, doy + 1) else monthDay (doy - len) rest (m + 1)

/-- Zero-padded two-digit decimal rendering (matches chrono for values
below 100, which covers months, days, hours, minutes and seconds). -/
def pad2c (n : Nat) : List Char :=
  [Nat.digitChar (n / 10 % 10), Nat.digitChar (n % 10)]

/-- Zero-padded four-digit decimal rendering (matches chrono for years
below 10000; nanosecond counts representable as `i64` only reach 2262). -/
def pad4c (n : Nat) : List Char :=
  [Nat.digitChar (n / 1000 % 10), Nat.digitChar (n / 100 % 10),
   Nat.digitChar (n / 10 % 10), Nat.digitChar (n % 10)]

/-- Seconds since the epoch for a nanosecond reading. -/
def secsOf (t : Nat) : Nat := t / 1000000000

/-- Days since 1970-01-01. -/
def daysOf (t : Nat) : Nat := secsOf t / 86400

/-- Seconds elapsed within the current day. -/
def sodOf (t : Nat) : Nat := secsOf t % 86400

/-- The 19 characters `YYYY/MM/DD HH:MM:SS` of the display timestamp for a
nanosecond reading `t`. Models
`chrono::DateTime::from_timestamp_nanos(t).to_rfc3339()` truncated at the
first `.`, with `T` replaced by a space and `-` by `/`. -/
def coreTimeChars (t : Nat) : List Char :=
  pad4c (yearFromDays (daysOf t)).1 ++ ['/'] ++
  pad2c (monthDay (yearFromDays (daysOf t)).2
          (monthLengths (isLeap (yearFromDays (daysOf t)).1)) 1).1 ++ ['/'] ++
  pad2c (monthDay (yearFromDays (daysOf t)).2
          (monthLengths (isLeap (yearFromDays (daysOf t)).1)) 1).2 ++ [' '] ++
  pad2c (sodOf t / 3600) ++ [':'] ++
  pad2c (sodOf t % 3600 / 60) ++ [':'] ++
  pad2c (sodOf t % 60)

/-- `to_rfc3339` (SecondsFormat::AutoSi) prints no `.fraction` when the
nanosecond fraction is zero, so splitting the string on `.` then leaves the
`+00:00` UTC offset attached to the date-time part; otherwise the split
drops everything from the fraction on. -/
def offsetTail (t : Nat) : String :=
  if t % 1000000000 = 0 then "+00:00" else ""

/-- The `to_print` string of `style_time` in `src/__private_log.rs`:
`time_format[0].replace("T", " ").replace("-", "/")` for clock reading `t`. -/
def to_print (t : Nat) : String :=
  String.mk (coreTimeChars t) ++ offsetTail t

/-- `style_time` from `src/__private_log.rs`, with the `SystemTime::now()`
reading passed explicitly: `(to_print.on_bright_black(), " to_print ")`. -/
def style_time (t : Nat) : String × String :=
  (ansi "100" (to_print t), " " ++ to_print t ++ " ")

/-- `formatter` from `src/__private_log.rs`. Each arm of the source makes
two separate `style_time()` calls (hence two clock reads): the first feeds
the styled string, the second the plain string; the embedding passes those
two readings as `t1` and `t2`. The `JSON` arm is a placeholder with the
same body as the `TEXT` arm. -/
def formatter (c : Config) (level : LogLevel) (message : String)
    (t1 t2 : Nat) : String × String :=
  match c.file_logger_config.log_format with
  | .TEXT =>
    if c.log_with_time then
      ((style_time t1).1 ++ " " ++ style_level level ++ " " ++ message,
       (style_time t2).2 ++ " " ++ levelName level ++ " " ++ message)
    else
      (style_level level ++ " " ++ message,
       levelName level ++ " " ++ message)
  | .JSON =>
    if c.log_with_time then
      ((style_time t1).1 ++ " " ++ style_level level ++ " " ++ message,
       (style_time t2).2 ++ " " ++ levelName level ++ " " ++ message)
    else
      (style_level level ++ " " ++ message,
       levelName level ++ " " ++ message)

/-- `file_log` from `src/__private_log.rs`, with the file system's response
passed as the oracle `fe`: `none` means the open and the write succeed and
`message ++ "\n"` is appended to the configured path; `some err` means the
open or the write fails with description `err`. -/
def file_log (fc : FileLogger) (message : String) (fe : Option String) :
    Except String (List Output) :=
  match fe with
  | some err => .error err
  | none => .ok [Output.fileAppend fc.path (message ++ "\n")]

/-- `log` from `src/__private_log.rs`. Parameters beyond the source
signature make the environment explicit: `dbg` is `cfg!(debug_assertions)`,
`t1 t2` the clock reads of the main `formatter` call, `t3 t4` those of the
error-path `formatter` call, `fe` the file-system oracle, and `cfg` the
contents of the global `CONFIG` cell. The result lists the side effects:
each `print!("{}\n", s)` becomes `Output.console (s ++ "\n")`. -/
def log (dbg : Bool) (t1 t2 t3 t4 : Nat) (fe : Option String)
    (cfg : Option Config) (level : LogLevel) (message : String) :
    List Output :=
  match cfg with
  | none => [Output.console "[ FATAL ] LumaLog: Config has not been initialized!\n"]
  | some c =>
    if dbg = false ∧ c.log_in_release = false ∧ LogLevel.DEBUG.ord ≤ level.ord then
      []
    else if c.log_level.ord < level.ord then
      []
    else
      (if c.std then
        [Output.console ((formatter c level message t1 t2).1 ++ "\n")]
       else []) ++
      (if c.file_logger_config.enabled then
        match file_log c.file_logger_config (formatter c level message t1 t2).2 fe with
        | .ok outs => outs
        | .error err =>
          [Output.console
            ((formatter c .ERROR ("Can not save log information in file: " ++ err) t3 t4).1
              ++ "\n")]
       else [])

/-- `true` iff a character list is exactly of shape `YYYY/MM/DD HH:MM:SS`
(four digits, slash, two digits, slash, two digits, space, two digits,
colon, two digits, colon, two digits). -/
def isTimeShape : List Char → Bool
  | [y1, y2, y3, y4, s1, mo1, mo2, s2, d1, d2, sp, h1, h2, c1, mi1, mi2, c2, se1, se2] =>
    y1.isDigit && y2.isDigit && y3.isDigit && y4.isDigit && s1 == '/' &&
    mo1.isDigit && mo2.isDigit && s2 == '/' && d1.isDigit && d2.isDigit &&
    sp == ' ' && h1.isDigit && h2.isDigit && c1 == ':' && mi1.isDigit &&
    mi2.isDigit && c2 == ':' && se1.isDigit && se2.isDigit
  | _ => false

/-- The configuration that the spec says `ConfigBuilder::build` produces:
every optional field left `None` is resolved to its default (level INFO,
file sink disabled with path "log.txt" and format TEXT). -/
def specResolved (b : ConfigBuilder) (w : Bool) : Config :=
  { log_level := b.log_level.getD .INFO,
    log_in_release := b.log_in_release,
    log_with_time := w,
    std := b.std,
    file_logger_config :=
      { enabled := (b.file_logger_config.getD FileLoggerBuilder.new).enabled,
        path := (b.file_logger_config.getD FileLoggerBuilder.new).path.getD "log.txt",
        log_format :=
          (b.file_logger_config.getD FileLoggerBuilder.new).log_format.getD .TEXT } }

theorem isDigit_digitChar_mod (x : Nat) : (Nat.digitChar (x % 10)).isDigit = true := by
  have h : x % 10 < 10 := Nat.mod_lt _ (by norm_num)
  revert h
  generalize x % 10 = k
  intro h
  interval_cases k <;> decide

theorem isTimeShape_coreTimeChars (t : Nat) : isTimeShape (coreTimeChars t) = true := by
  unfold coreTimeChars pad4c pad2c
  simp only [List.cons_append, List.nil_append]
  simp [isTimeShape, isDigit_digitChar_mod]

theorem foldl_applyFLBCall_enabled (calls : List FLBCall) (b : FileLoggerBuilder) :
    (calls.foldl applyFLBCall b).enabled = b.enabled := by
  induction calls generalizing b with
  | nil => rfl
  | cons c cs ih =>
    rw [List.foldl_cons, ih]
    cases c <;> rfl

/-- C1: with a configuration installed and in a debug build context (so the
release-suppression step does not apply), `log(a, m)` is emitted iff
`ordinal(a) <= ordinal(b)` where `b` is the configured minimum level, under
the fixed ordinals ERROR(0) < WARN(1) < INFO(2) < DEBUG(3) < TRACE(4): when
`ordinal(a) > ordinal(b)` the call produces no console output and no file
write, and otherwise (with console output enabled) the styled formatted
message is printed. -/
theorem level_filtering (dbg : Bool) (t1 t2 t3 t4 : Nat) (fe : Option String)
    (c : Config) (a : LogLevel) (m : String) (hdbg : dbg = true) :
    (c.log_level.ord < a.ord → log dbg t1 t2 t3 t4 fe (some c) a m = []) ∧
    (a.ord ≤ c.log_level.ord → c.std = true →
      ∃ rest, log dbg t1 t2 t3 t4 fe (some c) a m =
        Output.console ((formatter c a m t1 t2).1 ++ "\n") :: rest) := by
  subst hdbg
  refine ⟨fun h => ?_, fun h hstd => ?_⟩
  · simp only [log]
    rw [if_neg (by simp), if_pos h]
  · simp only [log]
    rw [if_neg (by simp), if_neg (by omega), hstd]
    exact ⟨_, rfl⟩

/-- Witness for C1: under the default configuration (minimum INFO) a TRACE
message is dropped entirely. -/
theorem level_filtering_witness :
    log true 0 0 0 0 none
      (some ⟨.INFO, false, true, true, ⟨false, "log.txt", .TEXT⟩⟩) .TRACE "m" = [] :=
  (level_filtering true 0 0 0 0 none
    ⟨.INFO, false, true, true, ⟨false, "log.txt", .TEXT⟩⟩ .TRACE "m" rfl).1 (by decide)

/-- C2: in a non-debug build with `log_in_release` false, every DEBUG or
TRACE message is dropped silently regardless of the configured minimum
level, while ERROR, WARN and INFO messages are unaffected by the rule (the
call behaves exactly as in a debug build). -/
theorem release_suppression (dbg : Bool) (t1 t2 t3 t4 : Nat) (fe : Option String)
    (c : Config) (a : LogLevel) (m : String)
    (hdbg : dbg = false) (hrel : c.log_in_release = false) :
    (LogLevel.DEBUG.ord ≤ a.ord → log dbg t1 t2 t3 t4 fe (some c) a m = []) ∧
    (a.ord < LogLevel.DEBUG.ord →
      log dbg t1 t2 t3 t4 fe (some c) a m =
        log true t1 t2 t3 t4 fe (some c) a m) := by
  subst hdbg
  refine ⟨fun h => ?_, fun h => ?_⟩
  · simp [log, hrel, h]
  · simp only [log]
    rw [if_neg (show ¬(True ∧ c.log_in_release = false ∧
          LogLevel.DEBUG.ord ≤ a.ord) from fun hc => absurd hc.2.2 (by omega)),
        if_neg (show ¬(true = false ∧ c.log_in_release = false ∧
          LogLevel.DEBUG.ord ≤ a.ord) by simp)]

/-- Witness for C2: a DEBUG message is dropped in a release build even when
the configured minimum is TRACE (which would otherwise admit it). -/
theorem release_suppression_witness :
    log false 0 0 0 0 none
      (some ⟨.TRACE, false, true, true, ⟨false, "log.txt", .TEXT⟩⟩) .DEBUG "m" = [] :=
  (release_suppression false 0 0 0 0 none
    ⟨.TRACE, false, true, true, ⟨false, "log.txt", .TEXT⟩⟩ .DEBUG "m" rfl rfl).1
    (by decide)

/-- C3: calling `log` before any configuration is installed emits exactly
one fixed fallback console line containing "Config has not been
initialized" and nothing else — no file write, no formatting of the
caller's message, for every level, message and environment. -/
theorem uninitialized_fallback (dbg : Bool) (t1 t2 t3 t4 : Nat)
    (fe : Option String) (a : LogLevel) (m : String) :
    log dbg t1 t2 t3 t4 fe none a m =
      [Output.console "[ FATAL ] LumaLog: Config has not been initialized!\n"] := rfl

/-- C4: building a configuration while the global cell is already occupied
fails with a panic (`none`) rather than overwriting, and a successful first
install leaves exactly the installed configuration in the cell, so every
later read observes the first install's values. -/
theorem double_install_fails (b b2 : ConfigBuilder) (c0 c : Config)
    (cell2 : Option Config)
    (h : ConfigBuilder.build b2 none = some (c, cell2)) :
    ConfigBuilder.build b (some c0) = none ∧ cell2 = some c := by
  constructor
  · cases hr : resolveConfig b with
    | none => simp [ConfigBuilder.build, hr]
    | some c1 => simp [ConfigBuilder.build, hr]
  · cases hr : resolveConfig b2 with
    | none => simp [ConfigBuilder.build, hr] at h
    | some c2 =>
      simp only [ConfigBuilder.build, hr, Option.some.injEq, Prod.mk.injEq] at h
      rw [← h.2, h.1]

/-- Witness for C4: after installing the default configuration, a second
`build` call panics. -/
theorem double_install_fails_witness :
    ConfigBuilder.build ConfigBuilder.new
        (some ⟨.INFO, false, true, true, ⟨false, "log.txt", .TEXT⟩⟩) = none ∧
      (some (⟨.INFO, false, true, true, ⟨false, "log.txt", .TEXT⟩⟩ : Config)) =
        some (⟨.INFO, false, true, true, ⟨false, "log.txt", .TEXT⟩⟩ : Config) :=
  double_install_fails ConfigBuilder.new ConfigBuilder.new
    ⟨.INFO, false, true, true, ⟨false, "log.txt", .TEXT⟩⟩
    ⟨.INFO, false, true, true, ⟨false, "log.txt", .TEXT⟩⟩
    (some ⟨.INFO, false, true, true, ⟨false, "log.txt", .TEXT⟩⟩) (by rfl)

/-- C5: when the file sink is enabled and the append fails, `log` still
returns normally (the model is a total function into output events, with no
error outcome) and prints to the console — even when console output (`std`)
is disabled — a secondary ERROR-level formatted message embedding the I/O
failure description; no file write is produced. -/
theorem file_error_console_report (t1 t2 t3 t4 : Nat) (c : Config)
    (a : LogLevel) (m err : String)
    (hen : c.file_logger_config.enabled = true)
    (hlev : a.ord ≤ c.log_level.ord) :
    Output.console
        ((formatter c .ERROR ("Can not save log information in file: " ++ err) t3 t4).1
          ++ "\n")
      ∈ log true t1 t2 t3 t4 (some err) (some c) a m ∧
    (∀ p d, Output.fileAppend p d ∉ log true t1 t2 t3 t4 (some err) (some c) a m) ∧
    (c.std = false →
      log true t1 t2 t3 t4 (some err) (some c) a m =
        [Output.console
          ((formatter c .ERROR ("Can not save log information in file: " ++ err) t3 t4).1
            ++ "\n")]) := by
  have hlog : log true t1 t2 t3 t4 (some err) (some c) a m =
      (if c.std then [Output.console ((formatter c a m t1 t2).1 ++ "\n")] else []) ++
      [Output.console
        ((formatter c .ERROR ("Can not save log information in file: " ++ err) t3 t4).1
          ++ "\n")] := by
    simp only [log]
    rw [if_neg (by simp), if_neg (by omega), hen]
    simp [file_log]
  refine ⟨?_, ?_, ?_⟩
  · rw [hlog]
    exact List.mem_append_right _ (List.mem_singleton.mpr rfl)
  · intro p d hmem
    rw [hlog] at hmem
    by_cases hstd : c.std = true
    · simp [hstd] at hmem
    · rw [Bool.not_eq_true] at hstd
      simp [hstd] at hmem
  · intro hstd
    rw [hlog, hstd]
    simp

/-- Witness for C5: with console output disabled and the file sink enabled,
a failing append yields exactly the secondary console error line. -/
theorem file_error_console_report_witness :
    log true 0 0 0 0 (some "disk full")
        (some ⟨.INFO, false, false, false, ⟨true, "log.txt", .TEXT⟩⟩) .INFO "m" =
      [Output.console
        ((formatter ⟨.INFO, false, false, false, ⟨true, "log.txt", .TEXT⟩⟩ .ERROR
            ("Can not save log information in file: " ++ "disk full") 0 0).1 ++ "\n")] :=
  ((file_error_console_report 0 0 0 0
      ⟨.INFO, false, false, false, ⟨true, "log.txt", .TEXT⟩⟩ .INFO "m" "disk full"
      rfl (by decide)).2.2) rfl

/-- C6 counterexample: a builder with every optional field left `None`
except the defaults of `new()` — in particular `log_with_time = None` —
makes `build` panic (the source calls `self.log_with_time.unwrap()`), so
`build` does not succeed for every combination of `None` fields. -/
theorem build_none_time_counterexample :
    ConfigBuilder.build ⟨some .INFO, false, none, true, none⟩ none = none := rfl

/-- C6 amended: whenever `log_with_time` is `Some w`, `build` succeeds and
resolves each remaining optional field left `None` to its default —
minimum level INFO and a file-sink configuration built from defaults
(disabled, path "log.txt", format TEXT) — installing and returning exactly
that configuration; when `log_with_time` is `None`, `build` panics instead
of defaulting it to true. -/
theorem build_resolves_defaults (b : ConfigBuilder) (w : Bool)
    (hw : b.log_with_time = some w) :
    ConfigBuilder.build b none = some (specResolved b w, some (specResolved b w)) := by
  cases b with
  | mk ll lir lwt st flc =>
    simp only at hw
    subst hw
    cases ll <;> cases flc with
    | none =>
      simp [ConfigBuilder.build, resolveConfig, specResolved,
        FileLoggerBuilder.build, FileLoggerBuilder.new]
    | some fb =>
      cases fb with
      | mk e p f =>
        cases p <;> cases f <;>
          simp [ConfigBuilder.build, resolveConfig, specResolved,
            FileLoggerBuilder.build, FileLoggerBuilder.new]

/-- Witness for C6's amended theorem: a builder with `log_level = None`,
`file_logger_config = None` and `log_with_time = Some false` builds
successfully into the fully defaulted configuration. -/
theorem build_resolves_defaults_witness :
    ConfigBuilder.build ⟨none, true, some false, false, none⟩ none =
      some (specResolved ⟨none, true, some false, false, none⟩ false,
            some (specResolved ⟨none, true, some false, false, none⟩ false)) :=
  build_resolves_defaults ⟨none, true, some false, false, none⟩ false rfl

/-- C7 counterexample: the formatter is not a pure function of
(configuration, level, message): with timestamps enabled, two evaluations
whose wall-clock readings differ by one second produce different
(styled, plain) pairs at the same configuration, level and message. -/
theorem formatter_clock_counterexample :
    formatter ⟨.TRACE, false, true, true, ⟨false, "log.txt", .TEXT⟩⟩ .INFO "x" 0 0 ≠
      formatter ⟨.TRACE, false, true, true, ⟨false, "log.txt", .TEXT⟩⟩ .INFO "x"
        1000000000 1000000000 := by decide

/-- C7 amended: the formatter is a pure function of (configuration, level,
message) together with the readings of its two wall-clock calls: two
evaluations produce the same (styled, plain) pair whenever their
corresponding readings render to the same timestamp text (unconditionally
when timestamps are disabled), and within one evaluation the styled and the
plain representation carry the same timestamp text whenever the
evaluation's two clock reads render equally — the two reads are separate,
so this is not unconditional. -/
theorem formatter_deterministic_given_time (c : Config) (a : LogLevel)
    (m : String) (t1 t2 t1' t2' : Nat)
    (h1 : to_print t1 = to_print t1') (h2 : to_print t2 = to_print t2') :
    formatter c a m t1 t2 = formatter c a m t1' t2' ∧
    (c.log_with_time = true → to_print t1 = to_print t2 →
      ∃ ts, (formatter c a m t1 t2).1 =
              ansi "100" ts ++ " " ++ style_level a ++ " " ++ m ∧
            (formatter c a m t1 t2).2 =
              " " ++ ts ++ " " ++ " " ++ levelName a ++ " " ++ m) := by
  constructor
  · cases hf : c.file_logger_config.log_format <;>
      by_cases hw : c.log_with_time = true <;>
      simp [formatter, hf, hw, style_time, h1, h2]
  · intro hw hts
    refine ⟨to_print t1, ?_, ?_⟩ <;>
      cases hf : c.file_logger_config.log_format <;>
      simp [formatter, hf, hw, style_time, hts]

/-- Witness for C7's amended theorem: readings 1 ns and 2 ns render to the
same second, so the two evaluations agree. -/
theorem formatter_deterministic_given_time_witness :
    formatter ⟨.INFO, false, true, true, ⟨false, "log.txt", .TEXT⟩⟩ .INFO "x" 1 1 =
      formatter ⟨.INFO, false, true, true, ⟨false, "log.txt", .TEXT⟩⟩ .INFO "x" 2 2 :=
  (formatter_deterministic_given_time
    ⟨.INFO, false, true, true, ⟨false, "log.txt", .TEXT⟩⟩ .INFO "x" 1 2 1 2
    (by decide) (by decide)).1

/-- C8: for every configuration, level, message and clock readings, the
formatter's output under file format selector TEXT is identical to its
output under selector JSON, in both the styled and the plain component. -/
theorem text_json_identical (c : Config) (a : LogLevel) (m : String)
    (t1 t2 : Nat) :
    formatter { c with file_logger_config :=
        { c.file_logger_config with log_format := .TEXT } } a m t1 t2 =
      formatter { c with file_logger_config :=
        { c.file_logger_config with log_format := .JSON } } a m t1 t2 := rfl

/-- C9: with timestamps disabled both formatter outputs are exactly
`<level> <message>` with no timestamp segment; with timestamps enabled the
plain output begins (after the source's single leading space) with a
timestamp whose first 19 characters match `YYYY/MM/DD HH:MM:SS`, obtained
from the RFC-3339 time by replacing `T` with a space, `-` with `/`, and
splitting off the sub-second fraction, and the styled output wraps the same
shape of timestamp (from its own clock read) in a background color. The
bounds keep the readings inside the `i64` nanosecond range the source casts
into. -/
theorem timestamp_shape (c : Config) (a : LogLevel) (m : String) (t1 t2 : Nat)
    (h1 : t1 < 2 ^ 63) (h2 : t2 < 2 ^ 63) :
    (c.log_with_time = false →
      formatter c a m t1 t2 =
        (style_level a ++ " " ++ m, levelName a ++ " " ++ m)) ∧
    (c.log_with_time = true →
      (formatter c a m t1 t2).2 =
          " " ++ to_print t2 ++ " " ++ " " ++ levelName a ++ " " ++ m ∧
      (formatter c a m t1 t2).1 =
          ansi "100" (to_print t1) ++ " " ++ style_level a ++ " " ++ m ∧
      to_print t1 = String.mk (coreTimeChars t1) ++ offsetTail t1 ∧
      to_print t2 = String.mk (coreTimeChars t2) ++ offsetTail t2 ∧
      isTimeShape (coreTimeChars t1) = true ∧
      isTimeShape (coreTimeChars t2) = true) := by
  constructor
  · intro hw
    cases hf : c.file_logger_config.log_format <;> simp [formatter, hf, hw]
  · intro hw
    refine ⟨?_, ?_, rfl, rfl, isTimeShape_coreTimeChars t1,
      isTimeShape_coreTimeChars t2⟩ <;>
      cases hf : c.file_logger_config.log_format <;>
      simp [formatter, hf, hw, style_time]

/-- Witness for C9: at reading 0 the plain output decomposes into the
single-space-wrapped timestamp followed by the level name and message. -/
theorem timestamp_shape_witness :
    (formatter ⟨.INFO, false, true, true, ⟨false, "log.txt", .TEXT⟩⟩ .INFO "m" 0 0).2 =
      " " ++ to_print 0 ++ " " ++ " " ++ levelName .INFO ++ " " ++ "m" :=
  ((timestamp_shape ⟨.INFO, false, true, true, ⟨false, "log.txt", .TEXT⟩⟩ .INFO "m" 0 0
      (by norm_num) (by norm_num)).2 rfl).1

/-- C10: starting from `FileLoggerBuilder::new()`, any sequence of the
chainable builder methods `path` and `log_format` leaves `enabled` false,
and the `FileLogger` built from the result also has `enabled` false: no
builder method sets the `enabled` field. -/
theorem file_builder_never_enabled (calls : List FLBCall) :
    (calls.foldl applyFLBCall FileLoggerBuilder.new).enabled = false ∧
      ((calls.foldl applyFLBCall FileLoggerBuilder.new).build).enabled = false := by
  have h := foldl_applyFLBCall_enabled calls FileLoggerBuilder.new
  exact ⟨h, by simpa [FileLoggerBuilder.build] using h⟩

end Lumelog
